import Mathlib

/-!
# Shallow embedding of `libro_caja_app.py`

This file embeds the classification-and-assembly core of the "Libro de Caja"
application (`src/libro_caja_app.py`) and proves/refutes the frozen claims
about it.

Modelling conventions:
* Python `float` amounts are modelled as `ℚ`; all amounts appearing in the
  claims (integer-valued pesos, `1234.50`) are exactly representable, so no
  rounding behaviour is lost for the properties proved here.
* `pd.Timestamp` values are modelled as calendar dates (`Fecha`); the
  application discards time-of-day everywhere it matters (dates come from
  `parsear_fecha`, which drops the time part, or from day-resolution
  fallbacks).  Timestamp range limits (pandas: 1677-09-21 .. 2262-04-11)
  are modelled as a key-range check; an out-of-range parse raises inside
  `pd.to_datetime` and falls through to the next format, which the model
  reproduces for all 4-digit years.
* A CSV cell is a `String`; a missing cell / missing column (`NaN` after the
  `dtype=str` read, or an unmapped column name) is `Option.none`.  `a_numero`
  maps such cells to `0.0` exactly as the source does via its `pd.isna`
  check and default arguments.
* `datetime.now()` is passed explicitly as `anioActual : Nat`.
-/

attribute [local semireducible] Rat.add Rat.mul Rat.inv Rat.sub Rat.ofScientific

namespace LibroCaja

/-- Calendar date (the time-of-day of a `pd.Timestamp` is irrelevant here). -/
structure Fecha where
  anio : Nat
  mes : Nat
  dia : Nat
deriving DecidableEq, Repr

/-- Numeric sort/compare key of a date (lexicographic in year, month, day). -/
def Fecha.key (f : Fecha) : Nat := f.anio * 10000 + f.mes * 100 + f.dia

/-- Whitespace characters stripped by Python's `str.strip()`. -/
def esEspacio (c : Char) : Bool :=
  c = ' ' ∨ c = '\t' ∨ c = '\n' ∨ c = '\r' ∨ c = '\x0b' ∨ c = '\x0c'

/-- Python `str.strip()` (leading/trailing whitespace removal).  String
operations are implemented over the character list so that every
definition evaluates inside the kernel. -/
def pyStrip (s : String) : String :=
  String.mk (((s.toList.dropWhile esEspacio).reverse.dropWhile esEspacio).reverse)

def minusculaChar (c : Char) : Char :=
  if 'A' ≤ c ∧ c ≤ 'Z' then Char.ofNat (c.toNat + 32) else c

/-- `str.lower()` on the ASCII headers this application deals with. -/
def pyLower (s : String) : String := String.mk (s.toList.map minusculaChar)

/-- `s.replace(old, new)` for the single-character patterns this
application uses (`"."`, `","`, `"$"`, `" "`): every occurrence replaced. -/
def pyReplaceChar (s : String) (viejo : Char) (nuevo : String) : String :=
  String.mk (s.toList.foldr
    (fun c acc => (if c = viejo then nuevo.toList else [c]) ++ acc) [])

/-- `s.split(sep)` for a single-character separator (Python keeps empty
chunks between adjacent separators and at the ends). -/
def dividirEn (sep : Char) : List Char → List (List Char)
  | [] => [[]]
  | c :: rest =>
    let r := dividirEn sep rest
    if c = sep then [] :: r
    else
      match r with
      | [] => [[c]]
      | h :: t => (c :: h) :: t

/-- Value of a digit list, most significant first. -/
def digitsVal (l : List Char) : Nat :=
  l.foldl (fun a c => a * 10 + (c.toNat - 48)) 0

def allDigits (l : List Char) : Bool := l.all (·.isDigit)

/-- `str.isdigit()` restricted to ASCII: nonempty and all digits. -/
def pyIsdigit (s : String) : Bool :=
  !s.toList.isEmpty && allDigits s.toList

/-- `int(s)` for a decimal string: optional sign then digits, surrounding
whitespace tolerated; `none` models the `ValueError`. -/
def pyInt (s : String) : Option Int :=
  let t := (pyStrip s).toList
  match t with
  | '+' :: rest => if rest ≠ [] ∧ allDigits rest then some (digitsVal rest) else none
  | '-' :: rest => if rest ≠ [] ∧ allDigits rest then some (-(digitsVal rest : Int)) else none
  | rest => if rest ≠ [] ∧ allDigits rest then some (digitsVal rest) else none

/-- Unsigned decimal part of a Python float literal:
`digits [. digits]` or `. digits`; returns the value and the rest. -/
def pyFloatUnsigned (l : List Char) : Option (ℚ × List Char) :=
  let ip := l.takeWhile (·.isDigit)
  let r1 := l.dropWhile (·.isDigit)
  match r1 with
  | '.' :: r2 =>
    let fp := r2.takeWhile (·.isDigit)
    let r3 := r2.dropWhile (·.isDigit)
    if ip.isEmpty ∧ fp.isEmpty then none
    else some ((digitsVal ip : ℚ) + (digitsVal fp : ℚ) / ((10 : ℚ) ^ fp.length), r3)
  | _ => if ip.isEmpty then none else some ((digitsVal ip : ℚ), r1)

/-- Optional exponent suffix `e[sign]digits` of a Python float literal. -/
def pyFloatExp (l : List Char) : Option (Int × List Char) :=
  match l with
  | [] => some (0, [])
  | c :: r1 =>
    if c = 'e' ∨ c = 'E' then
      match r1 with
      | '+' :: r2 =>
        if r2 ≠ [] ∧ allDigits r2 then some ((digitsVal r2 : Int), []) else none
      | '-' :: r2 =>
        if r2 ≠ [] ∧ allDigits r2 then some (-(digitsVal r2 : Int), []) else none
      | r2 => if r2 ≠ [] ∧ allDigits r2 then some ((digitsVal r2 : Int), []) else none
    else none

/-- `float(s)` on decimal notation (sign, digits, decimal point, exponent);
`none` models the `ValueError` path.  The special spellings `inf`/`nan` and
underscore separators are not exercised by this code's inputs and are not
modelled. -/
def pyFloat (s : String) : Option ℚ :=
  let t := (pyStrip s).toList
  let (sgn, body) : ℚ × List Char :=
    match t with
    | '+' :: r => (1, r)
    | '-' :: r => (-1, r)
    | r => (1, r)
  match pyFloatUnsigned body with
  | none => none
  | some (v, rest) =>
    match pyFloatExp rest with
    | none => none
    | some (e, _) => some (sgn * v * (10 : ℚ) ^ e)

/-- `a_numero` (source lines 131-137) on a cell.  `none` is a missing cell
(`NaN`), mapped to `0.0` by the `pd.isna` guard; otherwise
`float(str(v).replace(".", "").replace(",", ".").strip())` with every
failure collapsed to `0.0`. -/
def aNumero (v : Option String) : ℚ :=
  match v with
  | none => 0
  | some s =>
    match pyFloat (pyStrip (pyReplaceChar (pyReplaceChar s '.' "") ',' ".")) with
    | some q => q
    | none => 0

/-- `a_numero` applied to a present string cell. -/
def aNumeroS (s : String) : ℚ := aNumero (some s)

/-- Leap year rule used by `calendar.monthrange`. -/
def bisiesto (y : Nat) : Bool := (y % 4 = 0 && y % 100 ≠ 0) || y % 400 = 0

/-- `calendar.monthrange(y, m)[1]`: number of days of month `m` of year `y`. -/
def diasEnMes (y m : Nat) : Nat :=
  if m = 2 then (if bisiesto y then 29 else 28)
  else if m = 4 ∨ m = 6 ∨ m = 9 ∨ m = 11 then 30
  else 31

/-- `pd.Timestamp` midnight range check (out-of-range dates raise
`OutOfBoundsDatetime` inside `pd.to_datetime`): valid midnights run from
1677-09-22 through 2262-04-11. -/
def timestampEnRango (f : Fecha) : Bool :=
  16770922 ≤ f.key && f.key ≤ 22620411

/-- Date validity as enforced by `pd.to_datetime(..., format=...)`. -/
def fechaValida (y m d : Nat) : Option Fecha :=
  if 1 ≤ m ∧ m ≤ 12 ∧ 1 ≤ d ∧ d ≤ diasEnMes y m ∧ timestampEnRango ⟨y, m, d⟩ then
    some ⟨y, m, d⟩
  else none

/-- `strptime` fragment `%d` / `%m`: one or two digits. -/
def num1a2 (l : List Char) : Option Nat :=
  if (l.length = 1 ∨ l.length = 2) ∧ allDigits l then some (digitsVal l) else none

/-- `strptime` fragment `%Y` for the 4-digit years this data carries
(1-3-digit years parse to out-of-range timestamps and fail anyway). -/
def num4 (l : List Char) : Option Nat :=
  if l.length = 4 ∧ allDigits l then some (digitsVal l) else none

/-- `strptime` fragment `%y`: exactly two digits; 00-68 → 2000s, 69-99 → 1900s. -/
def num2Anio (l : List Char) : Option Nat :=
  if l.length = 2 ∧ allDigits l then
    let v := digitsVal l
    some (if v ≤ 68 then 2000 + v else 1900 + v)
  else none

/-- Format `%d/%m/%Y`. -/
def fmtDMY (s : List Char) : Option Fecha :=
  match dividirEn '/' s with
  | [d, m, y] =>
    match num1a2 d, num1a2 m, num4 y with
    | some dv, some mv, some yv => fechaValida yv mv dv
    | _, _, _ => none
  | _ => none

/-- Format `%Y-%m-%d`. -/
def fmtYMD (s : List Char) : Option Fecha :=
  match dividirEn '-' s with
  | [y, m, d] =>
    match num4 y, num1a2 m, num1a2 d with
    | some yv, some mv, some dv => fechaValida yv mv dv
    | _, _, _ => none
  | _ => none

/-- Format `%d-%m-%Y`. -/
def fmtDMYg (s : List Char) : Option Fecha :=
  match dividirEn '-' s with
  | [d, m, y] =>
    match num1a2 d, num1a2 m, num4 y with
    | some dv, some mv, some yv => fechaValida yv mv dv
    | _, _, _ => none
  | _ => none

/-- Format `%d/%m/%y`. -/
def fmtDMY2 (s : List Char) : Option Fecha :=
  match dividirEn '/' s with
  | [d, m, y] =>
    match num1a2 d, num1a2 m, num2Anio y with
    | some dv, some mv, some yv => fechaValida yv mv dv
    | _, _, _ => none
  | _ => none

/-- `parsear_fecha` (source lines 117-128) on a present string value:
strip, keep the part before the first space (`valor.split(" ")[0]`), then
try the four formats in their fixed order; first success wins. -/
def parsearFechaS (valor : String) : Option Fecha :=
  let v := pyStrip valor
  if v.toList.isEmpty then none
  else
    let parteFecha := (dividirEn ' ' v.toList).headD []
    match fmtDMY parteFecha with
    | some f => some f
    | none =>
      match fmtYMD parteFecha with
      | some f => some f
      | none =>
        match fmtDMYg parteFecha with
        | some f => some f
        | none => fmtDMY2 parteFecha

/-- `parsear_fecha` on a cell: missing (`NaN`) and empty values give `None`. -/
def parsearFecha (valor : Option String) : Option Fecha :=
  match valor with
  | none => none
  | some s => parsearFechaS s

/-- Candidate separators, in the source's list order. -/
def SEPARADORES : List Char := [';', ',', '\t', '|']

/-- Occurrence count of `sep` in the first 2000 bytes of the buffer
(latin-1 decodes each byte to one character, so byte counting and
character counting agree; `errors="ignore"` never triggers). -/
def conteoSep (contenido : List Char) (sep : Char) : Nat :=
  (contenido.take 2000).count sep

/-- `detectar_separador` (source lines 63-66).  `max(conteos,
key=conteos.get)` returns the first key attaining the maximal count, in
dict insertion order, i.e. in `SEPARADORES` order. -/
def detectarSeparador (contenido : List Char) : Char :=
  [',', '\t', '|'].foldl
    (fun best s => if conteoSep contenido s > conteoSep contenido best then s else best)
    ';'

/-! ## Fixed fiscal code tables (source lines 32-57) -/

def TIPO_DOC_NOMBRES : List (Int × String) :=
  [(33, "Factura Electrónica"),
   (34, "Factura No Afecta o Exenta Elec."),
   (35, "Boleta Afecta Electrónica"),
   (38, "Boleta No Afecta o Exenta Elec."),
   (39, "Boleta Electrónica"),
   (41, "Boleta Exenta Electrónica"),
   (46, "Factura de Compra Electrónica"),
   (48, "Comprobante de Pago Electrónico"),
   (52, "Guía de Despacho Electrónica"),
   (56, "Nota de Débito Electrónica"),
   (61, "Nota de Crédito Electrónica"),
   (110, "Factura de Exportación Electrónica"),
   (111, "Nota de Débito de Exportación Elec."),
   (112, "Nota de Crédito de Exportación Elec.")]

/-- `TIPO_DOC_NOMBRES.get(codigo, dflt)`. -/
def nombreTipoDoc (codigo : Int) (dflt : String) : String :=
  ((TIPO_DOC_NOMBRES.find? (fun p => p.1 = codigo)).map (·.2)).getD dflt

def BOLETAS_AFECTAS : List Int := [35, 39]
def BOLETAS_EXENTAS : List Int := [38, 41]
def COMPROBANTES_PAGO : List Int := [48]
def NOTAS_CREDITO : List Int := [61, 112]
def NOTAS_DEBITO : List Int := [56, 111]
def FACTURAS_VENTA : List Int := [33, 34, 110]

/-- `int(x)` applied to a float: truncation toward zero. -/
def truncarHaciaCero (q : ℚ) : Int := if 0 ≤ q then ⌊q⌋ else ⌈q⌉

/-! ## Frames, files, `leer_csv` -/

/-- One data row: source header → string cell.  Rows in this model carry
their cells as present strings; a column absent from the row behaves as the
`fila.get` default at each call site. -/
structure Fila where
  cells : List (String × String)
deriving Repr, DecidableEq

def Fila.get? (f : Fila) (col : String) : Option String :=
  (f.cells.find? (fun p => p.1 = col)).map (·.2)

/-- Cell lookup through an optionally-mapped column: an unmapped canonical
field (`col_map.get(k, "")` giving a nonexistent column) and a column
absent from the row both give `none`, which the call sites default exactly
as the source's `fila.get(..., default)` does. -/
def celda (fila : Fila) (col : Option String) : Option String :=
  match col with
  | none => none
  | some c => fila.get? c

/-- A parsed tabular file as produced by one successful
`contenido.decode(enc)` + `pd.read_csv` attempt inside `leer_csv`
(headers already `.str.strip()`-ed and `_extra_` columns dropped). -/
structure Frame where
  headers : List String
  filas : List Fila
deriving Repr, DecidableEq

/-- An uploaded file.  Byte-level decoding and `pd.read_csv` are abstracted
as the outcome of each encoding attempt of `leer_csv`'s loop (one entry per
element of `ENCODINGS`): `some df` when the attempt produces a frame,
`none` when it raises and the loop continues. -/
structure Archivo where
  nombre : String
  intentos : List (Option Frame)
deriving Repr, DecidableEq

/-- `leer_csv` (source lines 69-114): first successful encoding attempt
wins; if every attempt fails the function raises
`ValueError(f"No se pudo leer el archivo: {...}")`, modelled as `.error`. -/
def leerCsv (a : Archivo) : Except String Frame :=
  match a.intentos.findSome? id with
  | some df => Except.ok df
  | none => Except.error ("No se pudo leer el archivo: " ++ a.nombre)

/-! ## Canonical records -/

/-- The `Tipo Documento` column holds an `int` code on the CSV paths and a
free-text label on the manual-entry and opening paths. -/
inductive TipoDocumento where
  | num : Int → TipoDocumento
  | txt : String → TipoDocumento
deriving Repr, DecidableEq

/-- One row of the Libro de Caja as built by the ingestion paths
(the dicts appended to `registros` / `data` in the source). -/
structure Registro where
  tipoOp : Int
  nDoc : String
  tipoDoc : TipoDocumento
  rut : String
  fecha : Fecha
  glosa : String
  c8 : ℚ
  c9 : ℚ
  origen : String
deriving Repr, DecidableEq

/-! ## Column mapping -/

/-- `cols = {norm(c): c for c in df.columns}` then `cols[k]` for the first
alias `k` present: the dict keeps the **last** header with a given
normalized name, and the first alias found wins. -/
def buscarCol (norm : String → String) (headers : List String)
    (aliases : List String) : Option String :=
  aliases.findSome? (fun k => headers.reverse.find? (fun c => norm c = k))

structure VentasMap where
  tipoDoc : Option String
  folio : Option String
  fecha : Option String
  rut : Option String
  razon : Option String
  neto : Option String
  exento : Option String
  total : Option String
deriving Repr, DecidableEq

/-- `_mapear_columnas_ventas` (source lines 230-283); normalization is
`c.lower()` (headers were already stripped by `leer_csv`). -/
def mapearColumnasVentas (headers : List String) : Option VentasMap :=
  let b := buscarCol pyLower headers
  let mapa : VentasMap :=
    { tipoDoc := b ["tipo doc", "tipo_doc", "tipodoc", "tipo documento"]
      folio := b ["folio", "n° folio", "numero folio"]
      fecha := b ["fecha docto", "fecha_docto", "fechadocto", "fecha operación", "fecha"]
      rut := b ["rut cliente", "rut_cliente", "rutcliente", "rut proveedor", "rut"]
      razon := b ["razon social", "razón social", "razon_social"]
      neto := b ["monto neto", "monto_neto", "neto"]
      exento := b ["monto exento", "monto_exento", "exento"]
      total := b ["monto total", "monto_total", "total"] }
  if mapa.tipoDoc.isSome ∧ mapa.fecha.isSome then some mapa else none

/-! ## Sales detail processing -/

/-- The pre-scan dict `fechas_por_folio` (source lines 158-164): for a
folio, the date of the **last** row carrying that (nonempty) folio together
with a parsable date, if any. -/
def fechasPorFolio (mFolio mFecha : Option String) (filas : List Fila)
    (folio : String) : Option Fecha :=
  (filas.filterMap (fun f =>
    let folioTmp := pyStrip ((celda f mFolio).getD "")
    match parsearFecha (celda f mFecha) with
    | some d => if folioTmp ≠ "" ∧ folioTmp = folio then some d else none
    | none => none)).getLast?

/-- Body of the sales row loop (source lines 166-217): `none` when the row
is skipped (`continue`). -/
def ventaRegistroFila (m : VentasMap) (fpf : String → Option Fecha)
    (fila : Fila) : Option Registro :=
  let tipoDocRaw := aNumero (celda fila m.tipoDoc)
  let tipoDoc : Int := if tipoDocRaw ≠ 0 then truncarHaciaCero tipoDocRaw else 0
  if tipoDoc ∈ FACTURAS_VENTA ++ NOTAS_CREDITO ++ NOTAS_DEBITO then
    let folio := pyStrip ((celda fila m.folio).getD "")
    let fecha? :=
      match parsearFecha (celda fila m.fecha) with
      | some d => some d
      | none => fpf folio
    match fecha? with
    | none => none
    | some fecha =>
      let rutCliente := pyStrip ((celda fila m.rut).getD "")
      let razon := pyStrip ((celda fila m.razon).getD "")
      let montoNeto := aNumero (celda fila m.neto)
      let montoExento := aNumero (celda fila m.exento)
      let montoTotal := aNumero (celda fila m.total)
      if tipoDoc ∈ NOTAS_CREDITO then
        some { tipoOp := 2, nDoc := folio, tipoDoc := TipoDocumento.num tipoDoc,
               rut := rutCliente, fecha := fecha, glosa := "NC Venta — " ++ razon,
               c8 := |montoTotal|, c9 := |montoNeto + montoExento|,
               origen := "venta_factura" }
      else if tipoDoc ∈ NOTAS_DEBITO then
        some { tipoOp := 1, nDoc := folio, tipoDoc := TipoDocumento.num tipoDoc,
               rut := rutCliente, fecha := fecha, glosa := "ND Venta — " ++ razon,
               c8 := |montoTotal|, c9 := |montoNeto + montoExento|,
               origen := "venta_factura" }
      else
        some { tipoOp := 1, nDoc := folio, tipoDoc := TipoDocumento.num tipoDoc,
               rut := rutCliente, fecha := fecha, glosa := "Venta — " ++ razon,
               c8 := |montoTotal|, c9 := |montoNeto + montoExento|,
               origen := "venta_factura" }
  else none

/-- Records contributed by one decodable sales file: an unmappable file is
skipped with a warning (empty contribution). -/
def ventasRegistrosArchivo (df : Frame) : List Registro :=
  match mapearColumnasVentas df.headers with
  | none => []
  | some m =>
    let fpf := fechasPorFolio m.folio m.fecha df.filas
    df.filas.filterMap (ventaRegistroFila m fpf)

/-! ## Sales summary processing -/

/-- One candidate match of `(20[0-9]{2})[_\-]?([0-9]{2})` at the head of
the character list: `(year, month-digits, rest-after-match)`. -/
def coincidenciaYYMM (l : List Char) : Option (Nat × Nat × List Char) :=
  match l with
  | '2' :: '0' :: a :: b :: rest =>
    if a.isDigit ∧ b.isDigit then
      let anio := 2000 + 10 * (a.toNat - 48) + (b.toNat - 48)
      match rest with
      | c :: d :: e :: rest2 =>
        if c = '_' ∨ c = '-' then
          if d.isDigit ∧ e.isDigit then
            some (anio, 10 * (d.toNat - 48) + (e.toNat - 48), rest2)
          else none
        else if c.isDigit ∧ d.isDigit then
          some (anio, 10 * (c.toNat - 48) + (d.toNat - 48), e :: rest2)
        else none
      | [c, d] =>
        if c.isDigit ∧ d.isDigit then
          some (anio, 10 * (c.toNat - 48) + (d.toNat - 48), [])
        else none
      | _ => none
    else none
  | _ => none

/-- `re.findall` scan: non-overlapping matches, left to right; the fuel is
the string length (every step consumes at least one character). -/
def coincidenciasYYMMAux : Nat → List Char → List (Nat × Nat)
  | 0, _ => []
  | _, [] => []
  | fuel + 1, c :: cs =>
    match coincidenciaYYMM (c :: cs) with
    | some (a, m, rest) => (a, m) :: coincidenciasYYMMAux fuel rest
    | none => coincidenciasYYMMAux fuel cs

def coincidenciasYYMM (s : String) : List (Nat × Nat) :=
  coincidenciasYYMMAux s.length s.toList

/-- `_fecha_fallback_desde_nombre` (source lines 286-312): last filename
match with a valid month wins (the `2000 ≤ año ≤ 2100` guard is implied by
the `20..` pattern), resolved to the last day of that month; otherwise
December 31 of a 4-digit period; otherwise December 31 of the current
year.  Always returns a date. -/
def fechaFallbackDesdeNombre (nombreArchivo periodo : String)
    (anioActual : Nat) : Fecha :=
  match (coincidenciasYYMM nombreArchivo).reverse.find?
      (fun p => 2000 ≤ p.1 ∧ p.1 ≤ 2100 ∧ 1 ≤ p.2 ∧ p.2 ≤ 12) with
  | some (anio, mes) => ⟨anio, mes, diasEnMes anio mes⟩
  | none =>
    let anioPeriodo := pyStrip periodo
    if pyIsdigit anioPeriodo ∧ anioPeriodo.length = 4 then
      ⟨digitsVal anioPeriodo.toList, 12, 31⟩
    else ⟨anioActual, 12, 31⟩

/-- `re.search(r"\((\d+)\)", s)`: leftmost parenthesized digit group. -/
def buscarParenDigitos : List Char → Option Nat
  | [] => none
  | '(' :: rest =>
    let ds := rest.takeWhile (·.isDigit)
    let r2 := rest.dropWhile (·.isDigit)
    if ds ≠ [] ∧ r2.headD ' ' = ')' then some (digitsVal ds)
    else buscarParenDigitos rest
  | _ :: rest => buscarParenDigitos rest

/-- Column resolution of `_procesar_resumen_ventas` (source lines 322-365);
normalization is `c.lower().strip()`; there is no unmappable case. -/
structure ResumenCols where
  fecha : Option String
  tipo : Option String
  neto : Option String
  exento : Option String
  total : Option String
  folioIni : Option String
  folioFin : Option String
deriving Repr, DecidableEq

def mapearColumnasResumen (headers : List String) : ResumenCols :=
  let b := buscarCol (fun c => pyStrip (pyLower c)) headers
  { fecha := b ["fecha", "fecha docto", "fecha_docto"]
    tipo := b ["tipo documento", "tipo_documento", "tipodocumento"]
    neto := b ["monto neto", "monto_neto", "neto"]
    exento := b ["monto exento", "monto_exento", "exento"]
    total := b ["monto total", "monto_total", "total"]
    folioIni := b ["folio inicial", "folio_inicial", "desde"]
    folioFin := b ["folio final", "folio_final", "hasta"] }

/-- Body of the summary row loop (source lines 367-427).  The operation
date comes **only** from `_fecha_fallback_desde_nombre` (the detected date
column is never consulted, and the fallback never returns `None`, so the
`if fecha is None` guard of line 402 is dead). -/
def resumenRegistroFila (cols : ResumenCols) (nombre periodo : String)
    (anioActual : Nat) (fila : Fila) : Option Registro :=
  let tipoStr := pyStrip ((celda fila cols.tipo).getD "")
  if tipoStr = "" then none
  else
    let codigo? : Option Int :=
      match buscarParenDigitos tipoStr.toList with
      | some c => some (c : Int)
      | none => pyInt tipoStr
    match codigo? with
    | none => none
    | some codigo =>
      if codigo ∈ FACTURAS_VENTA then none
      else if codigo ∉ BOLETAS_AFECTAS ++ BOLETAS_EXENTAS ++ COMPROBANTES_PAGO then none
      else
        let montoNeto := aNumero (celda fila cols.neto)
        let montoExento := aNumero (celda fila cols.exento)
        let montoTotal := aNumero (celda fila cols.total)
        let fecha := fechaFallbackDesdeNombre nombre periodo anioActual
        let nDoc :=
          if cols.folioIni.isSome ∧ cols.folioFin.isSome then
            let fIni := pyStrip ((celda fila cols.folioIni).getD "")
            let fFin := pyStrip ((celda fila cols.folioFin).getD "")
            if fIni ≠ "" ∧ fFin ≠ "" then fIni ++ " al " ++ fFin else "Z"
          else "Z"
        some { tipoOp := 1, nDoc := nDoc, tipoDoc := TipoDocumento.num codigo,
               rut := "", fecha := fecha,
               glosa := "Resumen ventas boletas del día — " ++ nombreTipoDoc codigo tipoStr,
               c8 := |montoTotal|, c9 := |montoNeto + montoExento|,
               origen := "resumen_ventas" }

/-- `_procesar_resumen_ventas` on one decoded frame. -/
def procesarResumenVentas (df : Frame) (nombre periodo : String)
    (anioActual : Nat) : List Registro :=
  let cols := mapearColumnasResumen df.headers
  df.filas.filterMap (resumenRegistroFila cols nombre periodo anioActual)

/-- Sales-file loop of `procesamiento_ventas` (source lines 151-156): the
`leer_csv` `ValueError` is **not** caught here and aborts the whole call. -/
def ventasArchivosGo : List Archivo → Except String (List Registro)
  | [] => Except.ok []
  | a :: rest => do
    let df ← leerCsv a
    let rs := ventasRegistrosArchivo df
    let restRs ← ventasArchivosGo rest
    Except.ok (rs ++ restRs)

/-- Summary-file loop of `procesamiento_ventas` (source lines 220-222);
`leer_csv` failures abort here as well. -/
def resumenArchivosGo (periodo : String) (anioActual : Nat) :
    List Archivo → Except String (List Registro)
  | [] => Except.ok []
  | a :: rest => do
    let df ← leerCsv a
    let rs := procesarResumenVentas df a.nombre periodo anioActual
    let restRs ← resumenArchivosGo periodo anioActual rest
    Except.ok (rs ++ restRs)

/-- `procesamiento_ventas` (source lines 143-227). -/
def procesamientoVentas (archivosVentas archivosResumen : List Archivo)
    (periodo : String) (anioActual : Nat) : Except String (List Registro) := do
  let rs1 ← ventasArchivosGo archivosVentas
  let rs2 ← resumenArchivosGo periodo anioActual archivosResumen
  Except.ok (rs1 ++ rs2)

/-! ## Purchases processing -/

structure ComprasMap where
  tipoDoc : Option String
  folio : Option String
  fecha : Option String
  rut : Option String
  razon : Option String
  neto : Option String
  exento : Option String
  total : Option String
  netoActivoFijo : Option String
  ivaNoRecuperable : Option String
  tabPuros : Option String
  tabCigarrillos : Option String
  tabElaborados : Option String
  imptoSinCredito : Option String
  otroImpuesto : Option String
deriving Repr, DecidableEq

/-- `_mapear_columnas_compras` (source lines 614-715); normalization is
`c.lower().strip()`; the two-stage date lookup is the concatenation of its
alias lists. -/
def mapearColumnasCompras (headers : List String) : Option ComprasMap :=
  let b := buscarCol (fun c => pyStrip (pyLower c)) headers
  let mapa : ComprasMap :=
    { tipoDoc := b ["tipo doc", "tipo_doc", "tipodoc"]
      folio := b ["folio", "n° folio"]
      fecha := b ["fecha docto", "fecha_docto", "fechadocto", "fecha recepcion", "fecha"]
      rut := b ["rut proveedor", "rut_proveedor", "rutproveedor"]
      razon := b ["razon social", "razón social", "razon_social"]
      neto := b ["monto neto", "monto_neto", "neto"]
      exento := b ["monto exento", "monto_exento", "exento"]
      total := b ["monto total", "monto_total", "total"]
      netoActivoFijo := b ["monto neto activo fijo", "monto_neto_activo_fijo",
                           "neto activo fijo", "neto_activo_fijo"]
      ivaNoRecuperable := b ["monto iva no recuperable", "monto_iva_no_recuperable",
                             "iva no recuperable", "iva_no_recuperable",
                             "monto iva no rec.", "iva no rec."]
      tabPuros := b ["tabacos puros", "tabacos_puros",
                     "monto imp. tab. puros", "tab. puros",
                     "mto imp. tab. puros", "imp tab puros",
                     "tabacos puros no nominados"]
      tabCigarrillos := b ["mto imp. tab. cigarrillos", "tab. cigarrillos",
                           "tabacos cigarrillos", "cigarrillos",
                           "imp tab cigarrillos"]
      tabElaborados := b ["mto imp. tab. elaborados", "tab. elaborados",
                          "tabacos elaborados", "elaborados",
                          "imp tab elaborados"]
      imptoSinCredito := b ["impto. sin derecho a crédito", "impto sin derecho a credito",
                            "impto_sin_credito", "monto sin derecho a credito",
                            "imp. sin derecho a crédito", "imp sin derecho a credito",
                            "sin derecho a credito"]
      otroImpuesto := b ["valor otro impuesto", "otro impuesto", "otros impuestos",
                         "otro_impuesto", "otros impuestos sin credito"] }
  if mapa.tipoDoc.isSome ∧ mapa.fecha.isSome then some mapa else none

/-- Body of the purchases row loop (source lines 541-607).  Note there is
no document-type filter here: any code outside the credit/debit-note lists
takes the ordinary-purchase branch. -/
def compraRegistroFila (m : ComprasMap) (fpf : String → Option Fecha)
    (fila : Fila) : Option Registro :=
  let tipoDocRaw := aNumero (celda fila m.tipoDoc)
  let tipoDoc : Int := if tipoDocRaw ≠ 0 then truncarHaciaCero tipoDocRaw else 0
  let folio := pyStrip ((celda fila m.folio).getD "")
  let fecha? :=
    match parsearFecha (celda fila m.fecha) with
    | some d => some d
    | none => fpf folio
  match fecha? with
  | none => none
  | some fecha =>
    let rutProv := pyStrip ((celda fila m.rut).getD "")
    let razon := pyStrip ((celda fila m.razon).getD "")
    let montoNeto := aNumero (celda fila m.neto)
    let montoExento := aNumero (celda fila m.exento)
    let montoTotal := aNumero (celda fila m.total)
    let netoActivoFijo := aNumero (celda fila m.netoActivoFijo)
    let ivaNoRecuperable := aNumero (celda fila m.ivaNoRecuperable)
    let tabPuros := aNumero (celda fila m.tabPuros)
    let tabCigarrillos := aNumero (celda fila m.tabCigarrillos)
    let tabElaborados := aNumero (celda fila m.tabElaborados)
    let imptoSinCredito := aNumero (celda fila m.imptoSinCredito)
    let otroImpuesto := aNumero (celda fila m.otroImpuesto)
    let baseImponible := montoNeto + montoExento + netoActivoFijo
      + ivaNoRecuperable + tabPuros + tabCigarrillos + tabElaborados
      + imptoSinCredito + otroImpuesto
    if tipoDoc ∈ NOTAS_CREDITO then
      some { tipoOp := 1, nDoc := folio, tipoDoc := TipoDocumento.num tipoDoc,
             rut := rutProv, fecha := fecha, glosa := "NC Compra — " ++ razon,
             c8 := |montoTotal|, c9 := |baseImponible|, origen := "compra" }
    else if tipoDoc ∈ NOTAS_DEBITO then
      some { tipoOp := 2, nDoc := folio, tipoDoc := TipoDocumento.num tipoDoc,
             rut := rutProv, fecha := fecha, glosa := "ND Compra — " ++ razon,
             c8 := |montoTotal|, c9 := |baseImponible|, origen := "compra" }
    else
      some { tipoOp := 2, nDoc := folio, tipoDoc := TipoDocumento.num tipoDoc,
             rut := rutProv, fecha := fecha, glosa := "Compra — " ++ razon,
             c8 := |montoTotal|, c9 := |baseImponible|, origen := "compra" }

/-- Records contributed by one decodable purchases file. -/
def comprasRegistrosArchivo (df : Frame) : List Registro :=
  match mapearColumnasCompras df.headers with
  | none => []
  | some m =>
    let fpf := fechasPorFolio m.folio m.fecha df.filas
    df.filas.filterMap (compraRegistroFila m fpf)

/-- `procesamiento_compras` (source lines 522-611); `leer_csv` failures
abort the whole call, as in the sales case. -/
def procesamientoCompras : List Archivo → Except String (List Registro)
  | [] => Except.ok []
  | a :: rest => do
    let df ← leerCsv a
    let rs := comprasRegistrosArchivo df
    let restRs ← procesamientoCompras rest
    Except.ok (rs ++ restRs)

/-! ## Manual entry parsing (F29 / honorarios pasted text) -/

/-- Parser states of `csv.reader` on a single line (default dialect:
delimiter `,`, quotechar `"`, doublequote on, non-strict). -/
inductive CsvEstado where
  | inicio | campo | comillas | trasComillas
deriving Repr, DecidableEq

def csvLineaAux : CsvEstado → List Char → List Char → List String → List String
  | _, [], acc, campos => (String.mk acc.reverse :: campos).reverse
  | CsvEstado.inicio, c :: rest, acc, campos =>
    if c = '"' then csvLineaAux CsvEstado.comillas rest acc campos
    else if c = ',' then csvLineaAux CsvEstado.inicio rest [] (String.mk acc.reverse :: campos)
    else csvLineaAux CsvEstado.campo rest (c :: acc) campos
  | CsvEstado.campo, c :: rest, acc, campos =>
    if c = ',' then csvLineaAux CsvEstado.inicio rest [] (String.mk acc.reverse :: campos)
    else csvLineaAux CsvEstado.campo rest (c :: acc) campos
  | CsvEstado.comillas, c :: rest, acc, campos =>
    if c = '"' then csvLineaAux CsvEstado.trasComillas rest acc campos
    else csvLineaAux CsvEstado.comillas rest (c :: acc) campos
  | CsvEstado.trasComillas, c :: rest, acc, campos =>
    if c = '"' then csvLineaAux CsvEstado.comillas rest ('"' :: acc) campos
    else if c = ',' then csvLineaAux CsvEstado.inicio rest [] (String.mk acc.reverse :: campos)
    else csvLineaAux CsvEstado.campo rest (c :: acc) campos

/-- `list(csv.reader([linea]))[0]` for a nonempty line. -/
def csvLinea (s : String) : List String :=
  csvLineaAux CsvEstado.inicio s.toList [] []

/-- Substring containment (`needle in haystack`). -/
def listaContiene (aguja : List Char) : List Char → Bool
  | [] => aguja.isEmpty
  | c :: rest => aguja.isPrefixOf (c :: rest) || listaContiene aguja rest

def contieneSub (sub s : String) : Bool := listaContiene sub.toList s.toList

/-- `s.lstrip("-")`. -/
def lstripGuiones (s : String) : String :=
  String.mk (s.toList.dropWhile (· = '-'))

/-- The amount-cleaning chain of the manual parsers:
`.replace("$","").replace(".","").replace(",","").replace(" ","").strip()`. -/
def limpiarMonto (s : String) : String :=
  pyStrip (pyReplaceChar (pyReplaceChar (pyReplaceChar (pyReplaceChar s '$' "") '.' "") ',' "") ' ' "")

/-- One pasted F29 line (source lines 454-509): `none` covers every
`continue` (blank line, parse failure, short line, `int` ValueError,
invalid date, invalid amount). -/
def f29Linea (linea : String) : Option Registro :=
  let l := pyStrip linea
  if l = "" then none
  else
    let partes := (csvLinea l).map pyStrip
    if partes.length < 6 then none
    else
      match pyInt (partes.getD 0 "") with
      | none => none
      | some tipoOp =>
        let folio := pyStrip (partes.getD 1 "")
        let descripcion := pyStrip (partes.getD 2 "")
        let fechaStr := pyStrip (partes.getD 3 "")
        let detalle := pyStrip (partes.getD 4 "")
        let montoStr := pyStrip (partes.getD 5 "")
        match parsearFechaS fechaStr with
        | none => none
        | some fechaDt =>
          let montoLimpio := limpiarMonto montoStr
          if ¬ pyIsdigit (lstripGuiones montoLimpio) then none
          else
            match pyInt montoLimpio with
            | none => none
            | some monto =>
              some { tipoOp := tipoOp, nDoc := folio,
                     tipoDoc := TipoDocumento.txt descripcion, rut := "",
                     fecha := fechaDt, glosa := detalle,
                     c8 := (monto.natAbs : ℚ), c9 := 0, origen := "f29_texto" }

/-- `procesar_texto_f29` (source lines 434-516): optional keyword-sniffed
header line, then line-by-line parsing; `splitlines` is modelled on the
newline separator the pasted text uses. -/
def procesarTextoF29 (texto : String) : List Registro :=
  if (pyStrip texto).toList.isEmpty then []
  else
    let lineas := ((dividirEn '\n' (pyStrip texto).toList).map String.mk)
    let primera := pyLower (pyStrip (lineas.headD ""))
    let lineas :=
      if contieneSub "folio" primera ∨ contieneSub "descripción" primera
          ∨ contieneSub "descripcion" primera ∨ contieneSub "monto" primera
          ∨ contieneSub "c2" primera then
        lineas.tail
      else lineas
    lineas.filterMap f29Linea

/-- `abs(int(s)) if s.lstrip("-").isdigit() else 0`; `none` is the
`ValueError` raised by `int` when the `isdigit` pre-check passed anyway
(e.g. `"--5"`), which skips the whole line. -/
def montoHonorarios (s : String) : Option Nat :=
  if pyIsdigit (lstripGuiones s) then (pyInt s).map Int.natAbs else some 0

/-- One pasted honorarios line (source lines 731-794).  Header-like lines
are skipped per line; rows with both amounts zero are dropped. -/
def honorariosLinea (linea : String) : Option Registro :=
  let l := pyStrip linea
  if l = "" then none
  else
    let lineaLower := pyLower l
    if "c2".toList.isPrefixOf lineaLower.toList
        ∨ (contieneSub "tipo" lineaLower ∧ contieneSub "operaci" lineaLower) then none
    else
      let partes := (csvLinea l).map pyStrip
      if partes.length < 8 then none
      else
        match pyInt (partes.getD 0 "") with
        | none => none
        | some tipoOp =>
          let numero := pyStrip (partes.getD 1 "")
          let tipoDoc := pyStrip (partes.getD 2 "")
          let rut := pyStrip (partes.getD 3 "")
          let fechaStr := pyStrip (partes.getD 4 "")
          let nombre := pyStrip (partes.getD 5 "")
          let montoC8Str := pyStrip (partes.getD 6 "")
          let montoC9Str := pyStrip (partes.getD 7 "")
          match parsearFechaS fechaStr with
          | none => none
          | some fechaDt =>
            match montoHonorarios (limpiarMonto montoC8Str),
                montoHonorarios (limpiarMonto montoC9Str) with
            | some c8, some c9 =>
              if c8 = 0 ∧ c9 = 0 then none
              else
                some { tipoOp := tipoOp, nDoc := numero,
                       tipoDoc := TipoDocumento.txt
                         (if tipoDoc ≠ "" then tipoDoc else "Boleta de Honorarios Electrónica"),
                       rut := rut, fecha := fechaDt, glosa := nombre,
                       c8 := (c8 : ℚ), c9 := (c9 : ℚ), origen := "honorarios_texto" }
            | _, _ => none

/-- `procesar_texto_honorarios` (source lines 722-801). -/
def procesarTextoHonorarios (texto : String) : List Registro :=
  ((dividirEn '\n' (pyStrip texto).toList).map String.mk).filterMap honorariosLinea

/-! ## Ledger assembly -/

/-- The opening-balance row (source lines 819-831). -/
def filaSaldoInicial (saldoInicial : ℚ) (rutEmpresa periodo : String)
    (anioActual : Nat) : Registro :=
  { tipoOp := 0, nDoc := "", tipoDoc := TipoDocumento.txt "", rut := rutEmpresa,
    fecha :=
      if periodo ≠ "" ∧ pyIsdigit (pyStrip periodo) ∧ (pyStrip periodo).length = 4 then
        ⟨digitsVal (pyStrip periodo).toList, 1, 1⟩
      else ⟨anioActual, 1, 1⟩,
    glosa := "Saldo Inicial", c8 := saldoInicial, c9 := 0,
    origen := "saldo_inicial" }

def leFecha (a b : Registro) : Bool := a.fecha.key ≤ b.fecha.key

/-- `df.sort_values("Fecha Operación", na_position="first")`, modelled as a
sort by operation date (no record reaches the assembler without a date, so
`na_position` is moot).  The model's sort is stable; the source's
`sort_values` defaults to `kind="quicksort"`, which produces the same
by-date ordering and the same multiset of rows but carries **no** tie
stability guarantee — see claim C8. -/
def ordenarPorFecha (l : List Registro) : List Registro := l.mergeSort leFecha

/-- A numbered ledger row (`N° Correlativo` plus the record columns). -/
structure FilaLibro where
  corr : Nat
  reg : Registro
deriving Repr, DecidableEq

/-- `df_final.insert(0, "N° Correlativo", range(1, len(df_final) + 1))`. -/
def numerar (l : List Registro) : List FilaLibro :=
  l.enum.map (fun p => ⟨p.1 + 1, p.2⟩)

/-- `generar_libro_caja` (source lines 807-843). -/
def generarLibroCaja (dfVentas dfCompras : List Registro) (saldoInicial : ℚ)
    (rutEmpresa nombreEmpresa periodo : String) (anioActual : Nat) :
    List FilaLibro :=
  let frames := [dfVentas, dfCompras].filter (fun f => ¬ f.isEmpty)
  let saldoRow := filaSaldoInicial saldoInicial rutEmpresa periodo anioActual
  let dfFinal :=
    if ¬ frames.isEmpty then saldoRow :: ordenarPorFecha frames.flatten
    else [saldoRow]
  let _ := nombreEmpresa
  numerar dfFinal

/-- Step 1 of the edit handler: write the edited opening amount into the
**first** Tipo-0 row (`idx_saldo[0]`). -/
def actualizarPrimerSaldo : List FilaLibro → ℚ → List FilaLibro
  | [], _ => []
  | f :: rest, s =>
    if f.reg.tipoOp = 0 then { f with reg := { f.reg with c8 := s } } :: rest
    else f :: actualizarPrimerSaldo rest s

/-- The "Aplicar cambios y reordenar" handler (source lines 1754-1790).
The editor hands back the ledger with a possibly-edited C8 on its Tipo-0
row and possibly-edited dates (all other columns are disabled); the edited
values are modelled directly: `nuevoSaldo` is the edited opening amount
(`none` when the editor shows no Tipo-0 row), `nuevasFechas` the edited
date column, positional, where `none` keeps the stored date (the
`if nueva_fecha is not None` guard). -/
def aplicarCambios (libro : List FilaLibro) (nuevoSaldo : Option ℚ)
    (nuevasFechas : List (Option Fecha)) : List FilaLibro :=
  let conSaldo :=
    match nuevoSaldo with
    | none => libro
    | some s => actualizarPrimerSaldo libro s
  let conFechas := conSaldo.enum.map (fun p =>
    match nuevasFechas.getD p.1 none with
    | some d => { p.2 with reg := { p.2.reg with fecha := d } }
    | none => p.2)
  let saldoRows := (conFechas.filter (fun f => f.reg.tipoOp = 0)).map (·.reg)
  let otrosRows := ordenarPorFecha ((conFechas.filter (fun f => ¬ f.reg.tipoOp = 0)).map (·.reg))
  numerar (saldoRows ++ otrosRows)

/-! ## `main`-level wrappers -/

/-- `main`'s guard around `procesamiento_ventas` (source lines 1557-1565):
`df_ventas` starts empty and an escaped exception (`st.error`) leaves it
empty, discarding every sales and summary file of the batch. -/
def ventasEnMain (av ar : List Archivo) (periodo : String)
    (anioActual : Nat) : List Registro :=
  match procesamientoVentas av ar periodo anioActual with
  | Except.ok l => l
  | Except.error _ => []

/-! ## Claim-level predicates -/

/-- The Ledger invariant of the spec: exactly one Tipo-0 (OPENING) row, it
comes first, the remaining rows are in ascending operation-date order, and
the correlative column is the contiguous sequence `1..N`. -/
def LibroBienFormado (l : List FilaLibro) : Prop :=
  l.countP (fun f => f.reg.tipoOp = 0) = 1
  ∧ l.head?.map (fun f => f.reg.tipoOp) = some 0
  ∧ (l.drop 1).Pairwise (fun a b => a.reg.fecha.key ≤ b.reg.fecha.key)
  ∧ l.map (·.corr) = List.range' 1 l.length

/-- Both monetary tracks of a record are non-negative. -/
def RegistroNoNegativo (r : Registro) : Prop := 0 ≤ r.c8 ∧ 0 ≤ r.c9

instance (r : Registro) : Decidable (RegistroNoNegativo r) := by
  unfold RegistroNoNegativo
  infer_instance

/-! ## Concrete fixtures used by the claim theorems -/

def filaDe (hs vs : List String) : Fila := ⟨hs.zip vs⟩

def hdrsVenta : List String :=
  ["Tipo Doc", "Folio", "Fecha Docto", "Rut Cliente", "Razon Social",
   "Monto Neto", "Monto Exento", "Monto Total"]

/-- A one-row sales-detail file with parameterized date and amount cells. -/
def archVentaGen (nombre fecha neto exento total : String) : Archivo :=
  ⟨nombre, [some ⟨hdrsVenta,
    [filaDe hdrsVenta ["33", "55", fecha, "22222222-2", "CLI SA", neto, exento, total]]⟩]⟩

/-- The record `archVentaGen` produces when the date cell parses. -/
def registroVentaGen (d : Fecha) (neto exento total : String) : Registro :=
  { tipoOp := 1, nDoc := "55", tipoDoc := TipoDocumento.num 33,
    rut := "22222222-2", fecha := d, glosa := "Venta — CLI SA",
    c8 := |aNumeroS total|, c9 := |aNumeroS neto + aNumeroS exento|,
    origen := "venta_factura" }

/-- Sales-detail file whose single row has an unparsable date and no
folio-mate, while the file name carries the `2024-11` pattern. -/
def archVentaSinFecha : Archivo :=
  ⟨"ventas_2024-11.csv", [some ⟨hdrsVenta,
    [filaDe hdrsVenta ["33", "7", "sin-fecha", "22222222-2", "CLI SA", "100", "0", "119"]]⟩]⟩

def hdrsCompra : List String :=
  ["Tipo Doc", "Folio", "Fecha Docto", "RUT Proveedor", "Razon Social",
   "Monto Neto", "Monto Exento", "Monto Total"]

/-- A one-row purchase-detail file carrying only the base columns (all
adjustment columns absent), ordinary invoice code 33. -/
def archCompraBase (neto exento total : String) : Archivo :=
  ⟨"compras.csv", [some ⟨hdrsCompra,
    [filaDe hdrsCompra ["33", "123", "31/12/2024", "11111111-1", "PROV SA", neto, exento, total]]⟩]⟩

def hdrsCompraExt : List String :=
  hdrsCompra ++ ["Monto Neto Activo Fijo", "Monto IVA No Recuperable",
    "Tabacos Puros", "Tabacos Cigarrillos", "Tabacos Elaborados",
    "Impto. Sin Derecho a Crédito", "Valor Otro Impuesto"]

/-- A one-row purchase-detail file carrying every basis-adjustment column,
with all amount cells parameterized. -/
def archCompraExt (neto exento total af ivn tp tc te isc oi : String) : Archivo :=
  ⟨"compras.csv", [some ⟨hdrsCompraExt,
    [filaDe hdrsCompraExt
      ["33", "123", "31/12/2024", "11111111-1", "PROV SA", neto, exento, total,
       af, ivn, tp, tc, te, isc, oi]]⟩]⟩

/-- The record `archCompraExt` produces. -/
def registroCompraExt (neto exento total af ivn tp tc te isc oi : String) : Registro :=
  { tipoOp := 2, nDoc := "123", tipoDoc := TipoDocumento.num 33,
    rut := "11111111-1", fecha := ⟨2024, 12, 31⟩, glosa := "Compra — PROV SA",
    c8 := |aNumeroS total|,
    c9 := |aNumeroS neto + aNumeroS exento + aNumeroS af + aNumeroS ivn
           + aNumeroS tp + aNumeroS tc + aNumeroS te + aNumeroS isc + aNumeroS oi|,
    origen := "compra" }

def hdrsResumen : List String :=
  ["Tipo Documento", "Fecha", "Folio Inicial", "Folio Final",
   "Monto Neto", "Monto Exento", "Monto Total"]

/-- A one-row sales-summary file (receipt code 39) with parameterized date
cell and amount cells. -/
def archResumenGen (nombre fechaCelda neto exento total : String) : Archivo :=
  ⟨nombre, [some ⟨hdrsResumen,
    [filaDe hdrsResumen ["Boleta Electrónica(39)", fechaCelda, "100", "120", neto, exento, total]]⟩]⟩

/-- The record `archResumenGen` produces. -/
def registroResumenGen (nombre periodo : String) (anioActual : Nat)
    (neto exento total : String) : Registro :=
  { tipoOp := 1, nDoc := "100 al 120", tipoDoc := TipoDocumento.num 39,
    rut := "", fecha := fechaFallbackDesdeNombre nombre periodo anioActual,
    glosa := "Resumen ventas boletas del día — Boleta Electrónica",
    c8 := |aNumeroS total|, c9 := |aNumeroS neto + aNumeroS exento|,
    origen := "resumen_ventas" }

/-- The record produced by `archCompraBase neto exento total` (all
adjustment columns absent, so they contribute `a_numero(None) = 0`). -/
def registroCompraGen (neto exento total : String) : Registro :=
  { tipoOp := 2, nDoc := "123", tipoDoc := TipoDocumento.num 33,
    rut := "11111111-1", fecha := ⟨2024, 12, 31⟩, glosa := "Compra — PROV SA",
    c8 := |aNumeroS total|,
    c9 := |aNumeroS neto + aNumeroS exento + 0 + 0 + 0 + 0 + 0 + 0 + 0|,
    origen := "compra" }

/-- The concrete record of the C2 scenario. -/
def registroCompraBase : Registro :=
  { tipoOp := 2, nDoc := "123", tipoDoc := TipoDocumento.num 33,
    rut := "11111111-1", fecha := ⟨2024, 12, 31⟩, glosa := "Compra — PROV SA",
    c8 := 119000, c9 := 100000, origen := "compra" }

/-- The record produced from a purchase row with net = -200000. -/
def registroCompraNeg : Registro := { registroCompraBase with c9 := 200000 }

/-- A file none of whose encoding attempts decodes (`leer_csv` raises). -/
def archMalo : Archivo := ⟨"malo.csv", [none, none, none, none, none]⟩

/-- A plain income record used to instantiate hypotheses in witnesses. -/
def registroSimple : Registro :=
  { tipoOp := 1, nDoc := "1", tipoDoc := TipoDocumento.num 33, rut := "1-9",
    fecha := ⟨2024, 6, 15⟩, glosa := "Venta — X", c8 := 119000, c9 := 100000,
    origen := "venta_factura" }

/-- A concrete resolved sales column map (used to instantiate the row-level
date-resolution theorem). -/
def ventasMapSimple : VentasMap :=
  { tipoDoc := some "Tipo Doc", folio := some "Folio", fecha := some "Fecha Docto",
    rut := some "Rut Cliente", razon := some "Razon Social",
    neto := some "Monto Neto", exento := some "Monto Exento", total := some "Monto Total" }

def filaVentaSinFecha : Fila :=
  filaDe hdrsVenta ["33", "7", "sin-fecha", "22222222-2", "CLI SA", "100", "0", "119"]

/-- A sales row whose own date cell parses (15/06/2024). -/
def filaVentaConFecha : Fila :=
  filaDe hdrsVenta ["33", "55", "15/06/2024", "22222222-2", "CLI SA", "0", "0", "0"]

/-- An undecodable-header frame: `_mapear_columnas_ventas` fails on it. -/
def frameRaro : Frame := ⟨["X"], []⟩

/-- The record produced by the pasted F29 line whose leading
operation-kind field is `0`. -/
def registroF29Cero : Registro :=
  { tipoOp := 0, nDoc := "1", tipoDoc := TipoDocumento.txt "Formulario F-29", rut := "",
    fecha := ⟨2025, 2, 6⟩, glosa := "Pago", c8 := 100, c9 := 0, origen := "f29_texto" }

/-- A small well-formed ledger used to instantiate the edit-handler
invariant. -/
def libroSimple : List FilaLibro :=
  [⟨1, filaSaldoInicial 1000 "r" "2024" 2025⟩, ⟨2, registroSimple⟩]

/-! # Theorems on the claims -/

/-- Claim C6 (counterexample).  The claim says amount parsing "strips
currency symbols and spaces", so `"$1.234,50"` would parse to `1234.50`;
`a_numero` strips neither (only leading/trailing whitespace via
`.strip()`), and both a currency symbol and an interior space make the
parse fail and yield `0.0`. -/
theorem C6_contraejemplo :
    aNumeroS "$1.234,50" = 0 ∧ aNumeroS "1 234,50" = 0
    ∧ ((2469 : ℚ) / 2 ≠ 0) := by
  refine ⟨by decide, by decide, by norm_num⟩

/-- Claim C6 (amended).  Amount parsing is a pure total function that strips
only leading/trailing whitespace, treats `.` as a thousands separator and
`,` as a decimal separator (`"1.234,50"` → `1234.50`), and yields `0.0`
for every string whose cleaned form fails the float parse — including
strings with currency symbols or interior spaces, which are not removed. -/
theorem C6_a_numero :
    aNumeroS "1.234,50" = 2469 / 2
    ∧ aNumeroS "  1.234,50  " = 2469 / 2
    ∧ aNumeroS "" = 0
    ∧ aNumeroS "garbage" = 0
    ∧ aNumeroS "$1.234,50" = 0
    ∧ aNumeroS "1 234,50" = 0
    ∧ (∀ s : String,
        pyFloat (pyStrip (pyReplaceChar (pyReplaceChar s '.' "") ',' ".")) = none →
        aNumeroS s = 0) := by
  refine ⟨by decide, by decide, by decide, by decide, by decide, by decide, ?_⟩
  intro s h
  simp [aNumeroS, aNumero, h]

/-- Witness for `C6_a_numero` at the concrete garbage string: the cleaned
form fails the float parse, and `a_numero` yields 0. -/
theorem C6_a_numero_witness :
    pyFloat (pyStrip (pyReplaceChar (pyReplaceChar "abc" '.' "") ',' ".")) = none
    ∧ aNumeroS "abc" = 0 :=
  ⟨by decide, C6_a_numero.2.2.2.2.2.2 "abc" (by decide)⟩

/-- Claim C7.  Date parsing keeps only the part before the first space
(dropping a trailing time), tries `%d/%m/%Y`, `%Y-%m-%d`, `%d-%m-%Y`,
`%d/%m/%y` in that order, accepts the four spec examples and rejects
`"not-a-date"`; day/month-order (not ISO month-day) on the first format. -/
theorem C7_parsear_fecha :
    parsearFechaS "31/12/2024" = some ⟨2024, 12, 31⟩
    ∧ parsearFechaS "2024-12-31" = some ⟨2024, 12, 31⟩
    ∧ parsearFechaS "31-12-2024" = some ⟨2024, 12, 31⟩
    ∧ parsearFechaS "31/12/24" = some ⟨2024, 12, 31⟩
    ∧ parsearFechaS "not-a-date" = none
    ∧ parsearFechaS "31/12/2024 23:59" = some ⟨2024, 12, 31⟩
    ∧ parsearFechaS "01/02/2024" = some ⟨2024, 2, 1⟩
    ∧ parsearFechaS "29/02/2023" = none := by
  refine ⟨?_, ?_, ?_, ?_, ?_, ?_, ?_, ?_⟩ <;> decide

/-- Claim C9.  Separator detection over the first 2000 bytes: a strict-count
winner among `;`, `,`, tab, `|` is always selected, and with ties the
first maximal candidate in list order wins. -/
theorem C9_detectar_separador :
    (∀ (b : List Char) (s : Char), s ∈ SEPARADORES →
        (∀ t ∈ SEPARADORES, t ≠ s → conteoSep b t < conteoSep b s) →
        detectarSeparador b = s)
    ∧ (∀ (b : List Char) (i : Nat) (s : Char), SEPARADORES[i]? = some s →
        (∀ j t, j < i → SEPARADORES[j]? = some t → conteoSep b t < conteoSep b s) →
        (∀ t ∈ SEPARADORES, conteoSep b t ≤ conteoSep b s) →
        detectarSeparador b = s) := by
  constructor
  · intro b s hs h
    fin_cases hs
    · have a1 : conteoSep b ',' < conteoSep b ';' := h ',' (by simp [SEPARADORES]) (by decide)
      have a2 : conteoSep b '\t' < conteoSep b ';' := h '\t' (by simp [SEPARADORES]) (by decide)
      have a3 : conteoSep b '|' < conteoSep b ';' := h '|' (by simp [SEPARADORES]) (by decide)
      simp only [detectarSeparador, List.foldl]
      split_ifs <;> first | rfl | (exfalso; omega)
    · have a1 : conteoSep b ';' < conteoSep b ',' := h ';' (by simp [SEPARADORES]) (by decide)
      have a2 : conteoSep b '\t' < conteoSep b ',' := h '\t' (by simp [SEPARADORES]) (by decide)
      have a3 : conteoSep b '|' < conteoSep b ',' := h '|' (by simp [SEPARADORES]) (by decide)
      simp only [detectarSeparador, List.foldl]
      split_ifs <;> first | rfl | (exfalso; omega)
    · have a1 : conteoSep b ';' < conteoSep b '\t' := h ';' (by simp [SEPARADORES]) (by decide)
      have a2 : conteoSep b ',' < conteoSep b '\t' := h ',' (by simp [SEPARADORES]) (by decide)
      have a3 : conteoSep b '|' < conteoSep b '\t' := h '|' (by simp [SEPARADORES]) (by decide)
      simp only [detectarSeparador, List.foldl]
      split_ifs <;> first | rfl | (exfalso; omega)
    · have a1 : conteoSep b ';' < conteoSep b '|' := h ';' (by simp [SEPARADORES]) (by decide)
      have a2 : conteoSep b ',' < conteoSep b '|' := h ',' (by simp [SEPARADORES]) (by decide)
      have a3 : conteoSep b '\t' < conteoSep b '|' := h '\t' (by simp [SEPARADORES]) (by decide)
      simp only [detectarSeparador, List.foldl]
      split_ifs <;> first | rfl | (exfalso; omega)
  · intro b i s hi hlt hle
    match i, hi with
    | 0, hi =>
      have hs : s = ';' := by
        simp only [SEPARADORES] at hi
        exact (Option.some.inj hi).symm
      subst hs
      have a1 : conteoSep b ',' ≤ conteoSep b ';' := hle ',' (by simp [SEPARADORES])
      have a2 : conteoSep b '\t' ≤ conteoSep b ';' := hle '\t' (by simp [SEPARADORES])
      have a3 : conteoSep b '|' ≤ conteoSep b ';' := hle '|' (by simp [SEPARADORES])
      simp only [detectarSeparador, List.foldl]
      split_ifs <;> first | rfl | (exfalso; omega)
    | 1, hi =>
      have hs : s = ',' := by
        simp only [SEPARADORES] at hi
        exact (Option.some.inj hi).symm
      subst hs
      have a0 : conteoSep b ';' < conteoSep b ',' := hlt 0 ';' (by omega) (by rfl)
      have a2 : conteoSep b '\t' ≤ conteoSep b ',' := hle '\t' (by simp [SEPARADORES])
      have a3 : conteoSep b '|' ≤ conteoSep b ',' := hle '|' (by simp [SEPARADORES])
      simp only [detectarSeparador, List.foldl]
      split_ifs <;> first | rfl | (exfalso; omega)
    | 2, hi =>
      have hs : s = '\t' := by
        simp only [SEPARADORES] at hi
        exact (Option.some.inj hi).symm
      subst hs
      have a0 : conteoSep b ';' < conteoSep b '\t' := hlt 0 ';' (by omega) (by rfl)
      have a1 : conteoSep b ',' < conteoSep b '\t' := hlt 1 ',' (by omega) (by rfl)
      have a3 : conteoSep b '|' ≤ conteoSep b '\t' := hle '|' (by simp [SEPARADORES])
      simp only [detectarSeparador, List.foldl]
      split_ifs <;> first | rfl | (exfalso; omega)
    | 3, hi =>
      have hs : s = '|' := by
        simp only [SEPARADORES] at hi
        exact (Option.some.inj hi).symm
      subst hs
      have a0 : conteoSep b ';' < conteoSep b '|' := hlt 0 ';' (by omega) (by rfl)
      have a1 : conteoSep b ',' < conteoSep b '|' := hlt 1 ',' (by omega) (by rfl)
      have a2 : conteoSep b '\t' < conteoSep b '|' := hlt 2 '\t' (by omega) (by rfl)
      simp only [detectarSeparador, List.foldl]
      split_ifs <;> first | rfl | (exfalso; omega)
    | n + 4, hi => simp [SEPARADORES] at hi

/-- Witness for `C9_detectar_separador` at concrete buffers: `;` wins a
strict majority in `"a;b;c,d"`, and the all-zero tie in `"ab"` resolves to
`;`, the first candidate. -/
theorem C9_detectar_separador_witness :
    detectarSeparador "a;b;c,d".toList = ';'
    ∧ detectarSeparador "ab".toList = ';' := by
  constructor
  · exact C9_detectar_separador.1 "a;b;c,d".toList ';' (by decide) (by decide)
  · exact C9_detectar_separador.2 "ab".toList 0 ';' (by rfl)
      (by intro j t hj _; exact absurd hj (Nat.not_lt_zero j)) (by decide)

/-- Claim C2 (counterexample).  The claim's general formula "tax basis =
net + exempt + …" omits the absolute value the code applies: for a row
with net = -200000 (exempt 0, adjustments absent) the produced C9 is
`|−200000| = 200000`, not the claimed sum `−200000`. -/
theorem C2_contraejemplo :
    procesamientoCompras [archCompraBase "-200000" "0" "119000"]
      = Except.ok [registroCompraNeg]
    ∧ registroCompraNeg.c9 = 200000
    ∧ aNumeroS "-200000" + aNumeroS "0" + 0 + 0 + 0 + 0 + 0 + 0 + 0 = -200000
    ∧ (200000 : ℚ) ≠ -200000 :=
  ⟨rfl, rfl, by decide, by decide⟩

/-- Claim C2 (amended).  The scenario holds exactly: an ordinary purchase
invoice (code 33) with net=100000, exempt=0, total=119000 and no
adjustment columns yields Tipo Operación 2 (EXPENSE), C8 = 119000 and
C9 = 100000; in general the purchase tax basis C9 equals the **absolute
value** of net + exempt + fixed-asset net + non-recoverable tax + the
three tobacco sub-totals + non-creditable tax + other tax (and C8 the
absolute value of the total). -/
theorem C2_base_imponible_compras :
    procesamientoCompras [archCompraBase "100000" "0" "119000"]
      = Except.ok [registroCompraBase]
    ∧ registroCompraBase.tipoOp = 2
    ∧ registroCompraBase.c8 = 119000
    ∧ registroCompraBase.c9 = 100000
    ∧ (∀ neto exento total af ivn tp tc te isc oi : String,
        procesamientoCompras [archCompraExt neto exento total af ivn tp tc te isc oi]
          = Except.ok [registroCompraExt neto exento total af ivn tp tc te isc oi]) :=
  ⟨rfl, rfl, rfl, rfl, fun _ _ _ _ _ _ _ _ _ _ => rfl⟩

/-- Claim C3 (counterexample).  A sales-detail row with total = 0 (and a
valid date and document type) is **not** discarded: it contributes a
record with C8 = 0 to the ledger. -/
theorem C3_contraejemplo :
    procesamientoVentas [archVentaGen "v.csv" "15/06/2024" "0" "0" "0"] [] "2024" 2025
      = Except.ok [registroVentaGen ⟨2024, 6, 15⟩ "0" "0" "0"]
    ∧ (registroVentaGen ⟨2024, 6, 15⟩ "0" "0" "0").c8 = 0 :=
  ⟨rfl, by decide⟩

/-- Claim C3 (amended).  No CSV ingestion path filters zero-amount rows: a
classified sales-detail, purchase-detail or sales-summary row produces
exactly one record whatever its amount cells hold (including all-zero);
only the pasted-honorarios path drops a line whose two amounts are both
zero. -/
theorem C3_filas_monto_cero :
    (∀ neto exento total : String,
        procesamientoVentas [archVentaGen "v.csv" "15/06/2024" neto exento total] [] "2024" 2025
          = Except.ok [registroVentaGen ⟨2024, 6, 15⟩ neto exento total])
    ∧ (∀ neto exento total : String,
        procesamientoCompras [archCompraBase neto exento total]
          = Except.ok [registroCompraGen neto exento total])
    ∧ (∀ neto exento total : String,
        procesamientoVentas [] [archResumenGen "r.csv" "15/01/2024" neto exento total] "2024" 2025
          = Except.ok [registroResumenGen "r.csv" "2024" 2025 neto exento total])
    ∧ procesarTextoHonorarios "2,1,BHE,1-9,05/09/2024,N,0,0" = [] :=
  ⟨fun _ _ _ => rfl, fun _ _ _ => rfl, fun _ _ _ => rfl, rfl⟩

/-- Claim C4 (counterexample).  An undecodable file does not only skip
itself: `leer_csv`'s `ValueError` escapes the file loop, so the whole
sales pass fails and the other (perfectly decodable) file's record is
lost; `main` then falls back to an empty sales frame, and the assembled
ledger holds only the opening row. -/
theorem C4_contraejemplo :
    procesamientoVentas [archMalo, archVentaGen "v.csv" "15/06/2024" "100000" "0" "119000"]
        [] "2024" 2025
      = Except.error "No se pudo leer el archivo: malo.csv"
    ∧ procesamientoVentas [archVentaGen "v.csv" "15/06/2024" "100000" "0" "119000"] [] "2024" 2025
      = Except.ok [registroVentaGen ⟨2024, 6, 15⟩ "100000" "0" "119000"]
    ∧ ventasEnMain [archMalo, archVentaGen "v.csv" "15/06/2024" "100000" "0" "119000"]
        [] "2024" 2025 = []
    ∧ (generarLibroCaja
        (ventasEnMain [archMalo, archVentaGen "v.csv" "15/06/2024" "100000" "0" "119000"]
          [] "2024" 2025)
        [] 0 "r" "n" "2024" 2025).length = 1 :=
  ⟨rfl, rfl, rfl, rfl⟩

/-- Claim C4 (amended).  A *mapping* failure on one file is isolated (that
file alone is skipped, the rest of the batch proceeds); a *decode*
failure aborts the whole category's pass via the uncaught `ValueError`,
and `main`'s handler discards every file of that category — a ledger is
still produced from the remaining categories. -/
theorem C4_aislamiento_fallos :
    (∀ (rest : List Archivo) (per : String) (anio : Nat) (nombre : String) (df : Frame),
        mapearColumnasVentas df.headers = none →
        procesamientoVentas (⟨nombre, [some df]⟩ :: rest) [] per anio
          = procesamientoVentas rest [] per anio)
    ∧ (∀ (a : Archivo) (rest res : List Archivo) (per : String) (anio : Nat) (e : String),
        leerCsv a = Except.error e →
        procesamientoVentas (a :: rest) res per anio = Except.error e)
    ∧ (∀ (av ar : List Archivo) (per : String) (anio : Nat) (e : String)
        (compras : List Registro) (saldo : ℚ) (rut nom p2 : String) (a2 : Nat),
        procesamientoVentas av ar per anio = Except.error e →
        generarLibroCaja (ventasEnMain av ar per anio) compras saldo rut nom p2 a2
          = generarLibroCaja [] compras saldo rut nom p2 a2) := by
  refine ⟨?_, ?_, ?_⟩
  · intro rest per anio nombre df hm
    cases h2 : ventasArchivosGo rest with
    | error e =>
      simp [procesamientoVentas, ventasArchivosGo, leerCsv, ventasRegistrosArchivo,
        hm, h2, Bind.bind, Except.bind]
    | ok l =>
      simp [procesamientoVentas, ventasArchivosGo, leerCsv, ventasRegistrosArchivo,
        hm, h2, Bind.bind, Except.bind]
  · intro a rest res per anio e h
    simp [procesamientoVentas, ventasArchivosGo, h, Bind.bind, Except.bind]
  · intro av ar per anio e compras saldo rut nom p2 a2 h
    simp [ventasEnMain, h]

/-- Witness for `C4_aislamiento_fallos` at concrete inputs: the
unmappable one-column file is skipped, and `archMalo` errors out the
whole pass. -/
theorem C4_aislamiento_fallos_witness :
    (mapearColumnasVentas frameRaro.headers = none
      ∧ procesamientoVentas [⟨"raro.csv", [some frameRaro]⟩] [] "2024" 2025
          = procesamientoVentas [] [] "2024" 2025)
    ∧ (leerCsv archMalo = Except.error "No se pudo leer el archivo: malo.csv"
      ∧ procesamientoVentas [archMalo] [] "2024" 2025
          = Except.error "No se pudo leer el archivo: malo.csv")
    ∧ (generarLibroCaja (ventasEnMain [archMalo] [] "2024" 2025) [registroSimple] 0
          "r" "n" "2024" 2025
        = generarLibroCaja [] [registroSimple] 0 "r" "n" "2024" 2025) := by
  refine ⟨⟨by rfl, ?_⟩, ⟨by rfl, ?_⟩, ?_⟩
  · exact C4_aislamiento_fallos.1 [] "2024" 2025 "raro.csv" frameRaro (by rfl)
  · exact C4_aislamiento_fallos.2.1 archMalo [] [] "2024" 2025 _ (by rfl)
  · exact C4_aislamiento_fallos.2.2 [archMalo] [] "2024" 2025
      "No se pudo leer el archivo: malo.csv" [registroSimple] 0 "r" "n" "2024" 2025 (by rfl)

/-- Claim C5 (counterexample).  The fallback chain is not shared by all
rows: a sales-detail row whose own date fails and that has no folio-mate
is dropped even though the file name carries a usable `2024-11` pattern
(claim steps 3-5 never run for detail rows); a summary row's own parsable
date cell (15/01/2024) is ignored, its record carrying the
filename-derived date 2024-06-30 instead (claim steps 1-2 never run for
summary rows). -/
theorem C5_contraejemplo :
    procesamientoVentas [archVentaSinFecha] [] "2024" 2025 = Except.ok []
    ∧ fechaFallbackDesdeNombre "ventas_2024-11.csv" "2024" 2025 = ⟨2024, 11, 30⟩
    ∧ parsearFechaS "15/01/2024" = some ⟨2024, 1, 15⟩
    ∧ procesamientoVentas [] [archResumenGen "resumen_2024-06.csv" "15/01/2024" "50000" "0" "59500"]
        "2024" 2025
      = Except.ok [registroResumenGen "resumen_2024-06.csv" "2024" 2025 "50000" "0" "59500"]
    ∧ (registroResumenGen "resumen_2024-06.csv" "2024" 2025 "50000" "0" "59500").fecha
      = ⟨2024, 6, 30⟩ :=
  ⟨rfl, rfl, rfl, rfl, rfl⟩

/-- Claim C5 (amended).  Date resolution is split by path: a detail row uses
(1) its own date cell, then (2) a folio-mate's date, and is dropped when
both fail — steps 3-5 of the claimed chain never apply to it; a summary
row ignores its own date cell entirely and always carries the
filename-pattern → 4-digit-period → current-year fallback date. -/
theorem C5_resolucion_fechas :
    (∀ (m : VentasMap) (fpf : String → Option Fecha) (fila : Fila) (d : Fecha) (r : Registro),
        parsearFecha (celda fila m.fecha) = some d →
        ventaRegistroFila m fpf fila = some r → r.fecha = d)
    ∧ (∀ (m : VentasMap) (fpf : String → Option Fecha) (fila : Fila) (d : Fecha) (r : Registro),
        parsearFecha (celda fila m.fecha) = none →
        fpf (pyStrip ((celda fila m.folio).getD "")) = some d →
        ventaRegistroFila m fpf fila = some r → r.fecha = d)
    ∧ (∀ (m : VentasMap) (fpf : String → Option Fecha) (fila : Fila),
        parsearFecha (celda fila m.fecha) = none →
        fpf (pyStrip ((celda fila m.folio).getD "")) = none →
        ventaRegistroFila m fpf fila = none)
    ∧ (∀ (cols : ResumenCols) (nombre periodo : String) (anio : Nat) (fila : Fila) (r : Registro),
        resumenRegistroFila cols nombre periodo anio fila = some r →
        r.fecha = fechaFallbackDesdeNombre nombre periodo anio) := by
  refine ⟨?_, ?_, ?_, ?_⟩
  · intro m fpf fila d r h hr
    simp only [ventaRegistroFila, h] at hr
    repeat' split at hr
    all_goals first
      | exact Option.noConfusion hr
      | (cases hr; rfl)
  · intro m fpf fila d r h1 h2 hr
    simp only [ventaRegistroFila, h1, h2] at hr
    repeat' split at hr
    all_goals first
      | exact Option.noConfusion hr
      | (cases hr; rfl)
  · intro m fpf fila h1 h2
    simp only [ventaRegistroFila, h1, h2]
    repeat' split
    all_goals rfl
  · intro cols nombre periodo anio fila r hr
    simp only [resumenRegistroFila] at hr
    repeat' split at hr
    all_goals first
      | exact Option.noConfusion hr
      | (cases hr; rfl)

/-- Witness for `C5_resolucion_fechas`: the own-date clause at a concrete
mapped row (15/06/2024), and the drop clause at the dateless row. -/
theorem C5_resolucion_fechas_witness :
    (parsearFecha (celda filaVentaConFecha ventasMapSimple.fecha) = some ⟨2024, 6, 15⟩
      ∧ ventaRegistroFila ventasMapSimple (fun _ => none) filaVentaConFecha
          = some (registroVentaGen ⟨2024, 6, 15⟩ "0" "0" "0")
      ∧ (registroVentaGen ⟨2024, 6, 15⟩ "0" "0" "0").fecha = ⟨2024, 6, 15⟩)
    ∧ (parsearFecha (celda filaVentaSinFecha ventasMapSimple.fecha) = none
      ∧ ventaRegistroFila ventasMapSimple (fun _ => none) filaVentaSinFecha = none) := by
  refine ⟨⟨by rfl, by rfl, ?_⟩, ⟨by rfl, ?_⟩⟩
  · exact C5_resolucion_fechas.1 ventasMapSimple (fun _ => none) filaVentaConFecha
      ⟨2024, 6, 15⟩ (registroVentaGen ⟨2024, 6, 15⟩ "0" "0" "0") (by rfl) (by rfl)
  · exact C5_resolucion_fechas.2.2.1 ventasMapSimple (fun _ => none) filaVentaSinFecha
      (by rfl) (by rfl)

/-! ## Helper lemmas on numbering, ordering and membership -/

lemma numerar_go_reg (k : Nat) (l : List Registro) :
    ((l.enumFrom k).map (fun p => (⟨p.1 + 1, p.2⟩ : FilaLibro))).map FilaLibro.reg = l := by
  induction l generalizing k with
  | nil => rfl
  | cons r rest ih => simp [List.enumFrom, ih]

lemma numerar_map_reg (l : List Registro) : (numerar l).map FilaLibro.reg = l :=
  numerar_go_reg 0 l

lemma numerar_go_corr (k : Nat) (l : List Registro) :
    ((l.enumFrom k).map (fun p => (⟨p.1 + 1, p.2⟩ : FilaLibro))).map FilaLibro.corr
      = List.range' (k + 1) l.length := by
  induction l generalizing k with
  | nil => rfl
  | cons r rest ih => simp [List.enumFrom, List.range', ih]

lemma numerar_map_corr (l : List Registro) :
    (numerar l).map FilaLibro.corr = List.range' 1 l.length :=
  numerar_go_corr 0 l

lemma numerar_length (l : List Registro) : (numerar l).length = l.length := by
  simp [numerar]

lemma numerar_countP (p : Registro → Bool) (l : List Registro) :
    (numerar l).countP (fun f => p f.reg) = l.countP p := by
  have h := List.countP_map p FilaLibro.reg (numerar l)
  rw [numerar_map_reg] at h
  exact h.symm

lemma numerar_pairwise {R : Registro → Registro → Prop} {l : List Registro}
    (h : (l.drop 1).Pairwise R) :
    ((numerar l).drop 1).Pairwise (fun a b => R a.reg b.reg) := by
  have hm : ((numerar l).drop 1).map FilaLibro.reg = l.drop 1 := by
    rw [List.map_drop, numerar_map_reg]
  rw [← hm] at h
  exact List.pairwise_map.mp h

lemma mem_numerar_reg {f : FilaLibro} {l : List Registro} (h : f ∈ numerar l) : f.reg ∈ l := by
  rw [← numerar_map_reg l]
  exact List.mem_map_of_mem _ h

lemma leFecha_trans : ∀ (a b c : Registro), leFecha a b → leFecha b c → leFecha a c := by
  intro a b c
  simp [leFecha]
  omega

lemma leFecha_total : ∀ (a b : Registro), leFecha a b || leFecha b a := by
  intro a b
  simp [leFecha]
  omega

lemma ordenar_pairwise (l : List Registro) :
    (ordenarPorFecha l).Pairwise (fun a b : Registro => a.fecha.key ≤ b.fecha.key) := by
  have h : (List.mergeSort l leFecha).Pairwise (fun a b => leFecha a b) :=
    List.sorted_mergeSort leFecha_trans leFecha_total l
  exact h.imp (by intro a b hab; simpa [leFecha] using hab)

lemma mem_ordenar {r : Registro} {l : List Registro} (h : r ∈ ordenarPorFecha l) : r ∈ l :=
  List.mem_mergeSort.mp h

lemma mem_frames_flatten {ventas compras : List Registro} {r : Registro}
    (hr : r ∈ ([ventas, compras].filter (fun f => !f.isEmpty)).flatten) :
    r ∈ ventas ++ compras := by
  rw [List.mem_flatten] at hr
  obtain ⟨l, hl, hrl⟩ := hr
  rw [List.mem_filter] at hl
  have hl2 := hl.1
  simp only [List.mem_cons, List.mem_singleton] at hl2
  rcases hl2 with h1 | h1 | h1
  · subst h1; exact List.mem_append_left _ hrl
  · subst h1; exact List.mem_append_right _ hrl
  · exact absurd h1 (by simp)

lemma bien_formado_cons (s : Registro) (t : List Registro)
    (hs : s.tipoOp = 0) (ht : ∀ r ∈ t, r.tipoOp ≠ 0)
    (hp : t.Pairwise (fun a b : Registro => a.fecha.key ≤ b.fecha.key)) :
    LibroBienFormado (numerar (s :: t)) := by
  refine ⟨?_, ?_, ?_, ?_⟩
  · rw [numerar_countP (fun r => r.tipoOp = 0) (s :: t)]
    rw [List.countP_cons]
    have h0 : t.countP (fun r => decide (r.tipoOp = 0)) = 0 := by
      rw [List.countP_eq_zero]
      intro a ha
      simpa using ht a ha
    simp [h0, hs]
  · simp [numerar, List.enum, List.enumFrom, hs]
  · exact @numerar_pairwise (fun a b : Registro => a.fecha.key ≤ b.fecha.key) (s :: t) hp
  · rw [numerar_map_corr, numerar_length]

lemma actualizar_map_tipoOp (l : List FilaLibro) (s : ℚ) :
    (actualizarPrimerSaldo l s).map (fun f => f.reg.tipoOp) = l.map (fun f => f.reg.tipoOp) := by
  induction l with
  | nil => rfl
  | cons f rest ih =>
    unfold actualizarPrimerSaldo
    split
    · rfl
    · simp only [List.map]
      rw [ih]

lemma fechas_map_tipoOp (nf : List (Option Fecha)) (k : Nat) (l : List FilaLibro) :
    ((l.enumFrom k).map (fun p => match nf.getD p.1 none with
        | some d => { p.2 with reg := { p.2.reg with fecha := d } }
        | none => p.2)).map (fun f => f.reg.tipoOp)
      = l.map (fun f => f.reg.tipoOp) := by
  induction l generalizing k with
  | nil => rfl
  | cons f rest ih =>
    simp only [List.enumFrom, List.map]
    cases hk : nf.getD k none with
    | none => rw [ih (k + 1)]
    | some d => rw [ih (k + 1)]

lemma countP_tipoOp_eq {l1 l2 : List FilaLibro} (p : Int → Bool)
    (h : l1.map (fun f => f.reg.tipoOp) = l2.map (fun f => f.reg.tipoOp)) :
    l1.countP (fun f => p f.reg.tipoOp) = l2.countP (fun f => p f.reg.tipoOp) := by
  have h1 := List.countP_map p (fun f : FilaLibro => f.reg.tipoOp) l1
  have h2 := List.countP_map p (fun f : FilaLibro => f.reg.tipoOp) l2
  rw [h] at h1
  exact h1.symm.trans h2

lemma paso3_bien_formado (l2 : List FilaLibro)
    (hc : l2.countP (fun f => f.reg.tipoOp = 0) = 1) :
    LibroBienFormado (numerar ((l2.filter (fun f => f.reg.tipoOp = 0)).map FilaLibro.reg
      ++ ordenarPorFecha ((l2.filter (fun f => ¬ f.reg.tipoOp = 0)).map FilaLibro.reg))) := by
  have hlen : (l2.filter (fun f => f.reg.tipoOp = 0)).length = 1 := by
    rw [← List.countP_eq_length_filter]
    exact hc
  obtain ⟨x, hx⟩ := List.length_eq_one.mp hlen
  have hx0 : x.reg.tipoOp = 0 := by
    have hmem : x ∈ l2.filter (fun f => f.reg.tipoOp = 0) := by
      rw [hx]; exact List.mem_singleton_self x
    simpa using List.of_mem_filter hmem
  rw [hx]
  refine bien_formado_cons x.reg _ hx0 ?_ (ordenar_pairwise _)
  intro r hr
  have hr2 := mem_ordenar hr
  rw [List.mem_map] at hr2
  obtain ⟨f, hf, rfl⟩ := hr2
  simpa using (List.mem_filter.mp hf).2

/-- Claim C1 (counterexample).  The assembled ledger does not always hold
exactly one Tipo-0 row: a pasted F29 line with leading operation-kind
field `0` is accepted verbatim (`int(partes[0])` is never validated), so
the ledger built from it carries two Tipo-0 records — the synthetic
opening row and the pasted one. -/
theorem C1_contraejemplo :
    (generarLibroCaja [] (procesarTextoF29 "0,1,Formulario F-29,06/02/2025,Pago,100")
        0 "76.000.000-0" "EMP" "2025" 2025).countP (fun f => f.reg.tipoOp = 0) = 2 := by
  have h1 : procesarTextoF29 "0,1,Formulario F-29,06/02/2025,Pago,100" = [registroF29Cero] := rfl
  rw [h1]
  have h2 : generarLibroCaja [] [registroF29Cero] 0 "76.000.000-0" "EMP" "2025" 2025
      = numerar (filaSaldoInicial 0 "76.000.000-0" "2025" 2025 :: [registroF29Cero]) := by
    simp [generarLibroCaja, ordenarPorFecha]
  rw [h2, numerar_countP (fun r => r.tipoOp = 0)]
  rfl

/-- Claim C1 (amended).  Provided every ingested record carries a nonzero
operation-kind code (true of all CSV paths, which only emit kinds 1 and
2, but violable through a pasted F29/honorarios line with a leading `0`),
the assembled ledger contains exactly one Tipo-0 OPENING record, it is
first regardless of its date, the remaining records are ordered by
operation date ascending, and the correlative column is `1..N`; the same
invariant holds after every applied edit, given the ledger being edited
holds exactly one Tipo-0 row. -/
theorem C1_invariante_libro :
    (∀ (ventas compras : List Registro) (saldo : ℚ) (rut nom per : String) (anio : Nat),
        (∀ r ∈ ventas ++ compras, r.tipoOp ≠ 0) →
        LibroBienFormado (generarLibroCaja ventas compras saldo rut nom per anio))
    ∧ (∀ (libro : List FilaLibro) (ns : Option ℚ) (nf : List (Option Fecha)),
        libro.countP (fun f => f.reg.tipoOp = 0) = 1 →
        LibroBienFormado (aplicarCambios libro ns nf)) := by
  constructor
  · intro ventas compras saldo rut nom per anio h
    simp only [generarLibroCaja]
    split
    · refine bien_formado_cons _ _ rfl ?_ ?_
      · intro r hr
        refine h r (mem_frames_flatten ?_)
        have := mem_ordenar hr
        simpa using this
      · exact ordenar_pairwise _
    · exact bien_formado_cons _ [] rfl (by simp) (by simp)
  · intro libro ns nf h
    cases ns with
    | none =>
      simp only [aplicarCambios]
      apply paso3_bien_formado
      have h2 := fechas_map_tipoOp nf 0 libro
      exact (countP_tipoOp_eq (fun i => decide (i = 0)) h2).trans h
    | some s =>
      simp only [aplicarCambios]
      apply paso3_bien_formado
      have h2 := fechas_map_tipoOp nf 0 (actualizarPrimerSaldo libro s)
      have h1 := actualizar_map_tipoOp libro s
      exact (countP_tipoOp_eq (fun i => decide (i = 0)) (h2.trans h1)).trans h

/-- Witness for `C1_invariante_libro`: initial generation over one income
record, and an edit (new opening amount, one changed date) over a
two-row ledger. -/
theorem C1_invariante_libro_witness :
    ((∀ r ∈ [registroSimple] ++ ([] : List Registro), r.tipoOp ≠ 0)
      ∧ LibroBienFormado (generarLibroCaja [registroSimple] [] 1000 "r" "n" "2024" 2025))
    ∧ (libroSimple.countP (fun f => f.reg.tipoOp = 0) = 1
      ∧ LibroBienFormado (aplicarCambios libroSimple (some 5) [none, some ⟨2024, 1, 2⟩])) := by
  refine ⟨⟨by decide, ?_⟩, ⟨by decide, ?_⟩⟩
  · exact C1_invariante_libro.1 [registroSimple] [] 1000 "r" "n" "2024" 2025 (by decide)
  · exact C1_invariante_libro.2 libroSimple (some 5) [none, some ⟨2024, 1, 2⟩] (by decide)

/-! ## Non-negativity lemmas (C10) -/

lemma venta_fila_nonneg {m : VentasMap} {fpf : String → Option Fecha} {fila : Fila} {r : Registro}
    (h : ventaRegistroFila m fpf fila = some r) : RegistroNoNegativo r := by
  simp only [ventaRegistroFila] at h
  repeat' split at h
  all_goals first
    | exact Option.noConfusion h
    | (cases h; exact ⟨abs_nonneg _, abs_nonneg _⟩)

lemma compra_fila_nonneg {m : ComprasMap} {fpf : String → Option Fecha} {fila : Fila} {r : Registro}
    (h : compraRegistroFila m fpf fila = some r) : RegistroNoNegativo r := by
  simp only [compraRegistroFila] at h
  repeat' split at h
  all_goals first
    | exact Option.noConfusion h
    | (cases h; exact ⟨abs_nonneg _, abs_nonneg _⟩)

lemma resumen_fila_nonneg {cols : ResumenCols} {nombre periodo : String} {anio : Nat}
    {fila : Fila} {r : Registro}
    (h : resumenRegistroFila cols nombre periodo anio fila = some r) : RegistroNoNegativo r := by
  simp only [resumenRegistroFila] at h
  repeat' split at h
  all_goals first
    | exact Option.noConfusion h
    | (cases h; exact ⟨abs_nonneg _, abs_nonneg _⟩)

lemma f29_linea_nonneg {linea : String} {r : Registro}
    (h : f29Linea linea = some r) : RegistroNoNegativo r := by
  simp only [f29Linea] at h
  repeat' split at h
  all_goals first
    | exact Option.noConfusion h
    | (cases h; exact ⟨Nat.cast_nonneg _, le_rfl⟩)

lemma honorarios_linea_nonneg {linea : String} {r : Registro}
    (h : honorariosLinea linea = some r) : RegistroNoNegativo r := by
  simp only [honorariosLinea] at h
  repeat' split at h
  all_goals first
    | exact Option.noConfusion h
    | (cases h; exact ⟨Nat.cast_nonneg _, Nat.cast_nonneg _⟩)

lemma ventas_archivo_nonneg {df : Frame} {r : Registro}
    (h : r ∈ ventasRegistrosArchivo df) : RegistroNoNegativo r := by
  unfold ventasRegistrosArchivo at h
  split at h
  · exact absurd h (by simp)
  · rw [List.mem_filterMap] at h
    obtain ⟨fila, _, hf⟩ := h
    exact venta_fila_nonneg hf

lemma compras_archivo_nonneg {df : Frame} {r : Registro}
    (h : r ∈ comprasRegistrosArchivo df) : RegistroNoNegativo r := by
  unfold comprasRegistrosArchivo at h
  split at h
  · exact absurd h (by simp)
  · rw [List.mem_filterMap] at h
    obtain ⟨fila, _, hf⟩ := h
    exact compra_fila_nonneg hf

lemma resumen_archivo_nonneg {df : Frame} {nombre periodo : String} {anio : Nat} {r : Registro}
    (h : r ∈ procesarResumenVentas df nombre periodo anio) : RegistroNoNegativo r := by
  unfold procesarResumenVentas at h
  rw [List.mem_filterMap] at h
  obtain ⟨fila, _, hf⟩ := h
  exact resumen_fila_nonneg hf

lemma ventasGo_nonneg : ∀ (la : List Archivo) (l : List Registro),
    ventasArchivosGo la = Except.ok l → ∀ r ∈ l, RegistroNoNegativo r := by
  intro la
  induction la with
  | nil =>
    intro l h r hr
    simp only [ventasArchivosGo] at h
    cases h
    exact absurd hr (by simp)
  | cons a rest ih =>
    intro l h r hr
    simp only [ventasArchivosGo, Bind.bind, Except.bind] at h
    split at h
    · exact Except.noConfusion h
    · split at h
      · exact Except.noConfusion h
      · cases h
        rcases List.mem_append.mp hr with h2 | h2
        · exact ventas_archivo_nonneg h2
        · rename_i l2 heq
          exact ih l2 heq r h2

lemma resumenGo_nonneg (periodo : String) (anio : Nat) : ∀ (la : List Archivo) (l : List Registro),
    resumenArchivosGo periodo anio la = Except.ok l → ∀ r ∈ l, RegistroNoNegativo r := by
  intro la
  induction la with
  | nil =>
    intro l h r hr
    simp only [resumenArchivosGo] at h
    cases h
    exact absurd hr (by simp)
  | cons a rest ih =>
    intro l h r hr
    simp only [resumenArchivosGo, Bind.bind, Except.bind] at h
    split at h
    · exact Except.noConfusion h
    · split at h
      · exact Except.noConfusion h
      · cases h
        rcases List.mem_append.mp hr with h2 | h2
        · exact resumen_archivo_nonneg h2
        · rename_i l2 heq
          exact ih l2 heq r h2

lemma comprasGo_nonneg : ∀ (la : List Archivo) (l : List Registro),
    procesamientoCompras la = Except.ok l → ∀ r ∈ l, RegistroNoNegativo r := by
  intro la
  induction la with
  | nil =>
    intro l h r hr
    simp only [procesamientoCompras] at h
    cases h
    exact absurd hr (by simp)
  | cons a rest ih =>
    intro l h r hr
    simp only [procesamientoCompras, Bind.bind, Except.bind] at h
    split at h
    · exact Except.noConfusion h
    · split at h
      · exact Except.noConfusion h
      · cases h
        rcases List.mem_append.mp hr with h2 | h2
        · exact compras_archivo_nonneg h2
        · rename_i l2 heq
          exact ih l2 heq r h2

/-- Claim C10.  Every record produced by any ingestion path has C8 ≥ 0 and
C9 ≥ 0 (all paths take absolute values or cast from naturals), and with a
non-negative caller-supplied opening balance the whole assembled ledger
is non-negative in both tracks. -/
theorem C10_montos_no_negativos :
    (∀ (av ar : List Archivo) (per : String) (anio : Nat) (l : List Registro),
        procesamientoVentas av ar per anio = Except.ok l → ∀ r ∈ l, RegistroNoNegativo r)
    ∧ (∀ (ac : List Archivo) (l : List Registro),
        procesamientoCompras ac = Except.ok l → ∀ r ∈ l, RegistroNoNegativo r)
    ∧ (∀ texto : String, ∀ r ∈ procesarTextoF29 texto, RegistroNoNegativo r)
    ∧ (∀ texto : String, ∀ r ∈ procesarTextoHonorarios texto, RegistroNoNegativo r)
    ∧ (∀ (ventas compras : List Registro) (saldo : ℚ) (rut nom per : String) (anio : Nat),
        (∀ r ∈ ventas ++ compras, RegistroNoNegativo r) → 0 ≤ saldo →
        ∀ f ∈ generarLibroCaja ventas compras saldo rut nom per anio,
          RegistroNoNegativo f.reg) := by
  refine ⟨?_, comprasGo_nonneg, ?_, ?_, ?_⟩
  · intro av ar per anio l h r hr
    cases h1 : ventasArchivosGo av with
    | error e => simp [procesamientoVentas, h1, Bind.bind, Except.bind] at h
    | ok l1 =>
      cases h2 : resumenArchivosGo per anio ar with
      | error e => simp [procesamientoVentas, h1, h2, Bind.bind, Except.bind] at h
      | ok l2 =>
        simp only [procesamientoVentas, h1, h2, Bind.bind, Except.bind, Except.ok.injEq] at h
        subst h
        rcases List.mem_append.mp hr with h3 | h3
        · exact ventasGo_nonneg av l1 h1 r h3
        · exact resumenGo_nonneg per anio ar l2 h2 r h3
  · intro texto r hr
    simp only [procesarTextoF29] at hr
    split at hr
    · exact absurd hr (by simp)
    · rw [List.mem_filterMap] at hr
      obtain ⟨linea, _, hf⟩ := hr
      exact f29_linea_nonneg hf
  · intro texto r hr
    simp only [procesarTextoHonorarios] at hr
    rw [List.mem_filterMap] at hr
    obtain ⟨linea, _, hf⟩ := hr
    exact honorarios_linea_nonneg hf
  · intro ventas compras saldo rut nom per anio hvc hs f hf
    simp only [generarLibroCaja] at hf
    split at hf
    · have hm := mem_numerar_reg hf
      rcases List.mem_cons.mp hm with h1 | h1
      · rw [h1]
        exact ⟨hs, le_rfl⟩
      · exact hvc _ (mem_frames_flatten (by simpa using mem_ordenar h1))
    · have hm := mem_numerar_reg hf
      rcases List.mem_cons.mp hm with h1 | h1
      · rw [h1]
        exact ⟨hs, le_rfl⟩
      · exact absurd h1 (by simp)

/-- Witness for `C10_montos_no_negativos`: the sales clause at a concrete
one-row file, and the assembled-ledger clause at a one-record ledger with
opening balance 1000. -/
theorem C10_montos_no_negativos_witness :
    (procesamientoVentas [archVentaGen "v.csv" "15/06/2024" "100000" "0" "119000"] [] "2024" 2025
        = Except.ok [registroVentaGen ⟨2024, 6, 15⟩ "100000" "0" "119000"]
      ∧ ∀ r ∈ [registroVentaGen ⟨2024, 6, 15⟩ "100000" "0" "119000"], RegistroNoNegativo r)
    ∧ ((∀ r ∈ [registroSimple] ++ ([] : List Registro), RegistroNoNegativo r)
      ∧ (0 : ℚ) ≤ 1000
      ∧ ∀ f ∈ generarLibroCaja [registroSimple] [] 1000 "r" "n" "2024" 2025,
          RegistroNoNegativo f.reg) := by
  refine ⟨⟨by rfl, ?_⟩, ⟨by decide, by decide, ?_⟩⟩
  · exact C10_montos_no_negativos.1 [archVentaGen "v.csv" "15/06/2024" "100000" "0" "119000"]
      [] "2024" 2025 [registroVentaGen ⟨2024, 6, 15⟩ "100000" "0" "119000"] (by rfl)
  · exact C10_montos_no_negativos.2.2.2.2 [registroSimple] [] 1000 "r" "n" "2024" 2025
      (by decide) (by decide)

end LibroCaja
